import Mathlib

/-!
Verification of the request-tracing middleware (`pkg/middleware/request_tracing.go`).

The middleware is embedded shallowly:

* A Go `context.Context` is a chain of key/value derivations; we model it as a
  list of bindings, where `withValue` prepends and `value` returns the
  innermost (first) binding for a key, exactly as Go's context chain resolves
  lookups from the innermost derivation outwards.
* The private `contextKey struct{}` sentinel is one constructor of `CtxKey`;
  keys of unrelated middleware are `CtxKey.other n`, and values that are not
  strings (for which Go's `val.(string)` type assertion fails) are
  `CtxVal.nonString n`.
* The OpenTelemetry span is modelled by the ordered list of operations the
  middleware performs on it (`SpanEvent`): start, rename, attribute writes,
  error-status write, end.  `RequestTracing` returns that event list together
  with the context handed to the handler chain, the context observed after the
  chain returns, and the recorded response status.
* The downstream handler chain (`c.Next()`) is an arbitrary function from the
  request context it receives to the request context left in `c.Req` when it
  returns, paired with the status code the response writer recorded.
-/

/-- Keys that can be stored in a request context.  `routeOperationNameKey`
models the package-private `contextKey struct{}` sentinel; `spanKey` models the
span binding added by `tracing.Tracer.Start`; `other n` stands for any key used
by unrelated middleware. -/
inductive CtxKey where
  | routeOperationNameKey : CtxKey
  | spanKey : CtxKey
  | other : Nat → CtxKey
deriving DecidableEq, Repr

/-- Values stored in a request context: strings (for which Go's `val.(string)`
assertion succeeds) and non-string values (for which it fails). -/
inductive CtxVal where
  | str : String → CtxVal
  | nonString : Nat → CtxVal
deriving DecidableEq, Repr

/-- A Go `context.Context`: a chain of key/value derivations, innermost
binding first. -/
abbrev Context := List (CtxKey × CtxVal)

/-- Models `context.WithValue(ctx, k, v)`: derive a new context carrying one
more binding; the original context is the untouched tail. -/
def Context.withValue (ctx : Context) (k : CtxKey) (v : CtxVal) : Context :=
  (k, v) :: ctx

/-- Models `ctx.Value(k)`: walk the derivation chain from the innermost
binding outwards and return the first value bound to `k`, or `nil` (`none`). -/
def Context.value : Context → CtxKey → Option CtxVal
  | [], _ => none
  | (k2, v) :: rest, k => if k2 = k then some v else Context.value rest k

/-- Models `RouteOperationNameFromContext` (request_tracing.go lines 35-42):
look up `routeOperationNameKey`; if a value is present return it with the
result of the `val.(string)` type assertion, otherwise return `("", false)`. -/
def RouteOperationNameFromContext (ctx : Context) : String × Bool :=
  match Context.value ctx CtxKey.routeOperationNameKey with
  | some (CtxVal.str op) => (op, true)
  | some (CtxVal.nonString _) => ("", false)
  | none => ("", false)

/-- Models the context derivation performed by the middleware returned by
`ProvideRouteOperationName` (request_tracing.go line 29):
`context.WithValue(c.Req.Context(), routeOperationNameKey, name)`. -/
def withRouteOperationName (ctx : Context) (name : String) : Context :=
  Context.withValue ctx CtxKey.routeOperationNameKey (CtxVal.str name)

/-- The relevant fields of an inbound `*http.Request`: `req.Method`,
`req.URL.Path` and `req.RequestURI` (the literal URI, including any query
string). -/
structure Request where
  method : String
  urlPath : String
  requestURI : String
deriving DecidableEq, Repr

/-- One operation the middleware performs on the span, in program order. -/
inductive SpanEvent where
  | start : String → SpanEvent
  | setName : String → SpanEvent
  | setAttrInt : String → Int → SpanEvent
  | setAttrStr : String → String → SpanEvent
  | setStatusError : String → SpanEvent
  | endSpan : SpanEvent
deriving DecidableEq, Repr

/-- Models Go `strings.HasPrefix(s, pre)`: the characters of `pre` are an
initial segment of the characters of `s`. -/
def strHasPre (s pre : String) : Bool :=
  List.isPrefixOf pre.data s.data

/-- Models the bypass test at request_tracing.go lines 46-47:
`strings.HasPrefix(c.Req.URL.Path, "/public/") || c.Req.URL.Path == "robots.txt"`.
Note the source compares the URL path against the literal `"robots.txt"`
without a leading slash. -/
def bypassed (req : Request) : Bool :=
  strHasPre req.urlPath "/public/" || req.urlPath == "robots.txt"

/-- Result of one run of the tracing middleware: the span operations it
performed in order, the context passed into the handler chain, the context
found in `c.Req` after the chain returned, and the status the response writer
recorded. -/
structure TraceResult where
  events : List SpanEvent
  handlerCtx : Context
  finalCtx : Context
  status : Nat
deriving Repr

/-- Models the closure returned by `RequestTracing` (request_tracing.go lines
45-77) acting on one request.  `handler` is the downstream chain (`c.Next()`):
from the context it receives it produces the context left in `c.Req` and the
status code recorded by the response writer.  In the bypassed branch the chain
runs on the unmodified context and no span operation happens.  Otherwise the
span is started with name `"HTTP <method> <path>"`, the chain runs on the
span-bearing context, and afterwards: if a route operation name is found in
`c.Req.Context()` the span is renamed and its `End` is deferred (so it runs
after everything below); the three attributes are set; and for a status of 400
or more the error status is set with message
`"error with HTTP status code <status>"`. -/
def RequestTracing (req : Request) (ctx0 : Context)
    (handler : Context → Context × Nat) : TraceResult :=
  if bypassed req then
    { events := [],
      handlerCtx := ctx0,
      finalCtx := (handler ctx0).1,
      status := (handler ctx0).2 }
  else
    let ctxSpan := Context.withValue ctx0 CtxKey.spanKey (CtxVal.nonString 0)
    let hres := handler ctxSpan
    let ro := RouteOperationNameFromContext hres.1
    let renameEvents : List SpanEvent :=
      if ro.2 then [SpanEvent.setName ("HTTP " ++ req.method ++ " " ++ ro.1)] else []
    let endEvents : List SpanEvent :=
      if ro.2 then [SpanEvent.endSpan] else []
    let attrEvents : List SpanEvent :=
      [SpanEvent.setAttrInt "HTTP response status code" (Int.ofNat hres.2),
       SpanEvent.setAttrStr "HTTP request URI" req.requestURI,
       SpanEvent.setAttrStr "HTTP request method" req.method]
    let statusEvents : List SpanEvent :=
      if 400 ≤ hres.2 then
        [SpanEvent.setStatusError ("error with HTTP status code " ++ toString hres.2)]
      else []
    { events := SpanEvent.start ("HTTP " ++ req.method ++ " " ++ req.urlPath)
        :: (renameEvents ++ attrEvents ++ statusEvents ++ endEvents),
      handlerCtx := ctxSpan,
      finalCtx := hres.1,
      status := hres.2 }

/-- Number of `span start` calls in an event list. -/
def countStartEvents (events : List SpanEvent) : Nat :=
  (events.filter fun e => match e with | SpanEvent.start _ => true | _ => false).length

/-- Number of `span.End()` calls in an event list. -/
def countEndEvents (events : List SpanEvent) : Nat :=
  (events.filter fun e => match e with | SpanEvent.endSpan => true | _ => false).length

/-- The span's name after all events have been applied: the argument of the
last `start`/`SetName` event. -/
def finalSpanName (events : List SpanEvent) : Option String :=
  events.foldl
    (fun acc e =>
      match e with
      | SpanEvent.start n => some n
      | SpanEvent.setName n => some n
      | _ => acc)
    none

/-- Recognises attribute-setting events. -/
def isAttrEvent : SpanEvent → Bool
  | SpanEvent.setAttrInt _ _ => true
  | SpanEvent.setAttrStr _ _ => true
  | _ => false

/-- C7: on every context on which `withRouteOperationName` was never called
(no binding for the private key exists anywhere in the derivation chain),
`RouteOperationNameFromContext` returns `found = false` with an empty name,
not an error; the lookup is total on any context. -/
theorem routeOperationNameFrom_not_set (ctx : Context)
    (h : ∀ v : CtxVal, (CtxKey.routeOperationNameKey, v) ∉ ctx) :
    RouteOperationNameFromContext ctx = ("", false) := by
  have hval : Context.value ctx CtxKey.routeOperationNameKey = none := by
    induction ctx with
    | nil => rfl
    | cons b rest ih =>
      obtain ⟨k, v⟩ := b
      by_cases hk : k = CtxKey.routeOperationNameKey
      · subst hk
        exact absurd (List.mem_cons_self _ _) (h v)
      · simp only [Context.value, if_neg hk]
        exact ih fun v2 hmem => h v2 (List.mem_cons_of_mem _ hmem)
  simp [RouteOperationNameFromContext, hval]

/-- Witness for C7 at a concrete context that carries only an unrelated key. -/
theorem routeOperationNameFrom_not_set_witness :
    RouteOperationNameFromContext [(CtxKey.other 0, CtxVal.str "x")] = ("", false) :=
  routeOperationNameFrom_not_set [(CtxKey.other 0, CtxVal.str "x")]
    (by intro v hv; simp at hv)

/-- C8: for every context and non-empty name, `withRouteOperationName` always
succeeds: the lookup on the derived context finds exactly that name, the
original context is preserved untouched as the tail of the derived chain, and
lookups of every other key are unchanged by the derivation. -/
theorem withRouteOperationName_roundtrip (ctx : Context) (name : String)
    (h : name ≠ "") :
    RouteOperationNameFromContext (withRouteOperationName ctx name) = (name, true) ∧
    withRouteOperationName ctx name
      = (CtxKey.routeOperationNameKey, CtxVal.str name) :: ctx ∧
    ∀ k : CtxKey, k ≠ CtxKey.routeOperationNameKey →
      Context.value (withRouteOperationName ctx name) k = Context.value ctx k := by
  refine ⟨?_, rfl, ?_⟩
  · simp [RouteOperationNameFromContext, withRouteOperationName, Context.withValue,
      Context.value]
  · intro k hk
    have hne : CtxKey.routeOperationNameKey ≠ k := fun he => hk he.symm
    simp [withRouteOperationName, Context.withValue, Context.value, hne]

/-- Witness for C8 at a concrete context and name. -/
theorem withRouteOperationName_roundtrip_witness :
    RouteOperationNameFromContext
      (withRouteOperationName [(CtxKey.other 1, CtxVal.nonString 7)] "/api/org/preferences/")
      = ("/api/org/preferences/", true) :=
  (withRouteOperationName_roundtrip [(CtxKey.other 1, CtxVal.nonString 7)]
    "/api/org/preferences/" (by decide)).1

/-- C9: setting the route operation name twice is last-write-wins: the second
derivation shadows the first, and the lookup finds the newer name. -/
theorem withRouteOperationName_last_write_wins (ctx : Context) (a b : String) :
    RouteOperationNameFromContext
      (withRouteOperationName (withRouteOperationName ctx a) b) = (b, true) := by
  simp [RouteOperationNameFromContext, withRouteOperationName, Context.withValue,
    Context.value]

/-- C2: for every bypassed request (path starting with "/public/" or equal to
the designated robots file path "robots.txt"), the middleware performs no
tracing work: no span operation occurs and the handler chain is invoked on the
unmodified original context. -/
theorem requestTracing_bypass (req : Request) (ctx0 : Context)
    (handler : Context → Context × Nat) (h : bypassed req = true) :
    (RequestTracing req ctx0 handler).events = [] ∧
    (RequestTracing req ctx0 handler).handlerCtx = ctx0 := by
  simp [RequestTracing, h]

/-- Witness for C2 at a concrete static-asset request. -/
theorem requestTracing_bypass_witness :
    (RequestTracing ⟨"GET", "/public/build/app.js", "/public/build/app.js"⟩ []
        fun c => (c, 200)).events = [] ∧
    (RequestTracing ⟨"GET", "/public/build/app.js", "/public/build/app.js"⟩ []
        fun c => (c, 200)).handlerCtx = [] :=
  requestTracing_bypass ⟨"GET", "/public/build/app.js", "/public/build/app.js"⟩ []
    (fun c => (c, 200)) (by decide)

/-- C6: for every non-bypassed request, the first span operation is a span
start whose name is "HTTP <method> <raw-path>", built from the request method
and the literal URL path. -/
theorem requestTracing_initial_name (req : Request) (ctx0 : Context)
    (handler : Context → Context × Nat) (h : bypassed req = false) :
    (RequestTracing req ctx0 handler).events.head? =
      some (SpanEvent.start ("HTTP " ++ req.method ++ " " ++ req.urlPath)) := by
  simp [RequestTracing, h]

/-- Witness for C6 at a concrete request. -/
theorem requestTracing_initial_name_witness :
    (RequestTracing ⟨"GET", "/api/org/3/preferences", "/api/org/3/preferences?q=1"⟩ []
        fun c => (c, 200)).events.head? =
      some (SpanEvent.start "HTTP GET /api/org/3/preferences") :=
  requestTracing_initial_name ⟨"GET", "/api/org/3/preferences", "/api/org/3/preferences?q=1"⟩
    [] (fun c => (c, 200)) (by decide)

/-- C1 fails on the code: at the concrete non-bypassed request GET /x whose
handler never sets a route operation name, the span is started but never
ended, so the number of span.End calls is 0, not 1. -/
theorem requestTracing_end_count_counterexample :
    bypassed ⟨"GET", "/x", "/x"⟩ = false ∧
    countStartEvents (RequestTracing ⟨"GET", "/x", "/x"⟩ [] fun c => (c, 200)).events = 1 ∧
    countEndEvents (RequestTracing ⟨"GET", "/x", "/x"⟩ [] fun c => (c, 200)).events ≠ 1 := by
  refine ⟨by decide, by decide, by decide⟩

/-- C1 amended: for every non-bypassed request, exactly one span is started;
the span is ended exactly once when a route operation name was set in the
request context by the time the chain returned, and never ended otherwise. -/
theorem requestTracing_span_counts (req : Request) (ctx0 : Context)
    (handler : Context → Context × Nat) (h : bypassed req = false) :
    countStartEvents (RequestTracing req ctx0 handler).events = 1 ∧
    countEndEvents (RequestTracing req ctx0 handler).events =
      (if (RouteOperationNameFromContext (RequestTracing req ctx0 handler).finalCtx).2
        then 1 else 0) := by
  simp only [RequestTracing, h, Bool.false_eq_true, if_false]
  cases hro : (RouteOperationNameFromContext
      (handler (Context.withValue ctx0 CtxKey.spanKey (CtxVal.nonString 0))).1).2 <;>
    by_cases hst : 400 ≤ (handler (Context.withValue ctx0 CtxKey.spanKey (CtxVal.nonString 0))).2 <;>
      simp [countStartEvents, countEndEvents, hro, hst, List.filter]

/-- Witness for the amended C1 at a concrete request whose handler sets a
route operation name. -/
theorem requestTracing_span_counts_witness :
    countStartEvents (RequestTracing ⟨"GET", "/api/x", "/api/x"⟩ []
        fun c => (withRouteOperationName c "/api/:id", 200)).events = 1 ∧
    countEndEvents (RequestTracing ⟨"GET", "/api/x", "/api/x"⟩ []
        fun c => (withRouteOperationName c "/api/:id", 200)).events =
      (if (RouteOperationNameFromContext (RequestTracing ⟨"GET", "/api/x", "/api/x"⟩ []
          fun c => (withRouteOperationName c "/api/:id", 200)).finalCtx).2
        then 1 else 0) :=
  requestTracing_span_counts ⟨"GET", "/api/x", "/api/x"⟩ []
    (fun c => (withRouteOperationName c "/api/:id", 200)) (by decide)

/-- C3: for every non-bypassed request, if a route operation name was found in
the request context after the chain returned, the finalized span name is
"HTTP <method> <routeOperationName>"; if none was found, the span name remains
the initial "HTTP <method> <original-path>". -/
theorem requestTracing_final_name (req : Request) (ctx0 : Context)
    (handler : Context → Context × Nat) (h : bypassed req = false) :
    ((RouteOperationNameFromContext (RequestTracing req ctx0 handler).finalCtx).2 = true →
      finalSpanName (RequestTracing req ctx0 handler).events =
        some ("HTTP " ++ req.method ++ " " ++
          (RouteOperationNameFromContext (RequestTracing req ctx0 handler).finalCtx).1)) ∧
    ((RouteOperationNameFromContext (RequestTracing req ctx0 handler).finalCtx).2 = false →
      finalSpanName (RequestTracing req ctx0 handler).events =
        some ("HTTP " ++ req.method ++ " " ++ req.urlPath)) := by
  simp only [RequestTracing, h, Bool.false_eq_true, if_false]
  cases hro : (RouteOperationNameFromContext
      (handler (Context.withValue ctx0 CtxKey.spanKey (CtxVal.nonString 0))).1).2 <;>
    by_cases hst : 400 ≤ (handler (Context.withValue ctx0 CtxKey.spanKey (CtxVal.nonString 0))).2 <;>
      simp [finalSpanName, hro, hst]

/-- Witness for C3 at concrete requests, one handler setting a route name and
one leaving it unset. -/
theorem requestTracing_final_name_witness :
    finalSpanName (RequestTracing ⟨"GET", "/api/org/7", "/api/org/7"⟩ []
        fun c => (withRouteOperationName c "/api/org/:id", 200)).events =
      some "HTTP GET /api/org/:id" ∧
    finalSpanName (RequestTracing ⟨"GET", "/api/org/7", "/api/org/7"⟩ []
        fun c => (c, 200)).events = some "HTTP GET /api/org/7" :=
  ⟨(requestTracing_final_name ⟨"GET", "/api/org/7", "/api/org/7"⟩ []
      (fun c => (withRouteOperationName c "/api/org/:id", 200)) (by decide)).1 (by decide),
   (requestTracing_final_name ⟨"GET", "/api/org/7", "/api/org/7"⟩ []
      (fun c => (c, 200)) (by decide)).2 (by decide)⟩

/-- C4: for every non-bypassed request, an error status is set on the span iff
the recorded response status code is at least 400, and every error-status
message is the literal "error with HTTP status code <status>", which embeds
the numeric status code (the code's decimal rendering is a suffix of the
message). -/
theorem requestTracing_error_status (req : Request) (ctx0 : Context)
    (handler : Context → Context × Nat) (h : bypassed req = false) :
    ((∃ m, SpanEvent.setStatusError m ∈ (RequestTracing req ctx0 handler).events) ↔
      400 ≤ (RequestTracing req ctx0 handler).status) ∧
    (∀ m, SpanEvent.setStatusError m ∈ (RequestTracing req ctx0 handler).events →
      m = "error with HTTP status code " ++ toString (RequestTracing req ctx0 handler).status ∧
      ∃ p, m = p ++ toString (RequestTracing req ctx0 handler).status) := by
  simp only [RequestTracing, h, Bool.false_eq_true, if_false]
  cases hro : (RouteOperationNameFromContext
      (handler (Context.withValue ctx0 CtxKey.spanKey (CtxVal.nonString 0))).1).2 <;>
    by_cases hst : 400 ≤ (handler (Context.withValue ctx0 CtxKey.spanKey (CtxVal.nonString 0))).2 <;>
      simp [hro, hst] <;>
        exact ⟨"error with HTTP status code ", rfl⟩

/-- Witness for C4 at a concrete request answered with status 404. -/
theorem requestTracing_error_status_witness :
    ((∃ m, SpanEvent.setStatusError m ∈ (RequestTracing ⟨"GET", "/nope", "/nope"⟩ []
        fun c => (c, 404)).events) ↔
      400 ≤ (RequestTracing ⟨"GET", "/nope", "/nope"⟩ [] fun c => (c, 404)).status) ∧
    (∀ m, SpanEvent.setStatusError m ∈ (RequestTracing ⟨"GET", "/nope", "/nope"⟩ []
        fun c => (c, 404)).events →
      m = "error with HTTP status code " ++
        toString (RequestTracing ⟨"GET", "/nope", "/nope"⟩ [] fun c => (c, 404)).status ∧
      ∃ p, m = p ++ toString (RequestTracing ⟨"GET", "/nope", "/nope"⟩ []
        fun c => (c, 404)).status) :=
  requestTracing_error_status ⟨"GET", "/nope", "/nope"⟩ [] (fun c => (c, 404)) (by decide)

/-- C5: for every non-bypassed request, the attribute-setting events are
exactly three and in order: the response status code as an integer, the
literal request URI as a string, and the HTTP method as a string. -/
theorem requestTracing_attributes (req : Request) (ctx0 : Context)
    (handler : Context → Context × Nat) (h : bypassed req = false) :
    (RequestTracing req ctx0 handler).events.filter isAttrEvent =
      [SpanEvent.setAttrInt "HTTP response status code"
        (Int.ofNat (RequestTracing req ctx0 handler).status),
       SpanEvent.setAttrStr "HTTP request URI" req.requestURI,
       SpanEvent.setAttrStr "HTTP request method" req.method] := by
  simp only [RequestTracing, h, Bool.false_eq_true, if_false]
  cases hro : (RouteOperationNameFromContext
      (handler (Context.withValue ctx0 CtxKey.spanKey (CtxVal.nonString 0))).1).2 <;>
    by_cases hst : 400 ≤ (handler (Context.withValue ctx0 CtxKey.spanKey (CtxVal.nonString 0))).2 <;>
      simp [hro, hst, isAttrEvent]

/-- Witness for C5 at a concrete request. -/
theorem requestTracing_attributes_witness :
    (RequestTracing ⟨"POST", "/api/ds", "/api/ds?q=2"⟩ [] fun c => (c, 200)).events.filter
        isAttrEvent =
      [SpanEvent.setAttrInt "HTTP response status code"
        (Int.ofNat (RequestTracing ⟨"POST", "/api/ds", "/api/ds?q=2"⟩ []
          fun c => (c, 200)).status),
       SpanEvent.setAttrStr "HTTP request URI" "/api/ds?q=2",
       SpanEvent.setAttrStr "HTTP request method" "POST"] :=
  requestTracing_attributes ⟨"POST", "/api/ds", "/api/ds?q=2"⟩ [] (fun c => (c, 200))
    (by decide)

/-- C10: for every non-bypassed request whose route operation name was set,
span.End runs last: the event list ends with the single endSpan event, and the
rename, all attribute writes, and any error-status write occur strictly before
it. -/
theorem requestTracing_end_runs_last (req : Request) (ctx0 : Context)
    (handler : Context → Context × Nat) (h : bypassed req = false)
    (hro : (RouteOperationNameFromContext (RequestTracing req ctx0 handler).finalCtx).2 = true) :
    (RequestTracing req ctx0 handler).events =
      (RequestTracing req ctx0 handler).events.dropLast ++ [SpanEvent.endSpan] ∧
    SpanEvent.endSpan ∉ (RequestTracing req ctx0 handler).events.dropLast ∧
    SpanEvent.setName ("HTTP " ++ req.method ++ " " ++
        (RouteOperationNameFromContext (RequestTracing req ctx0 handler).finalCtx).1) ∈
      (RequestTracing req ctx0 handler).events.dropLast ∧
    (∀ e ∈ (RequestTracing req ctx0 handler).events, isAttrEvent e = true →
      e ∈ (RequestTracing req ctx0 handler).events.dropLast) ∧
    (∀ m, SpanEvent.setStatusError m ∈ (RequestTracing req ctx0 handler).events →
      SpanEvent.setStatusError m ∈ (RequestTracing req ctx0 handler).events.dropLast) := by
  simp only [RequestTracing, h, Bool.false_eq_true, if_false] at hro ⊢
  by_cases hst : 400 ≤ (handler (Context.withValue ctx0 CtxKey.spanKey (CtxVal.nonString 0))).2 <;>
    simp [hro, hst, isAttrEvent, List.dropLast]

/-- Witness for C10 at a concrete request with a route name set and an error
status. -/
theorem requestTracing_end_runs_last_witness :
    (RequestTracing ⟨"GET", "/api/org/9", "/api/org/9"⟩ []
        fun c => (withRouteOperationName c "/api/org/:id", 403)).events =
      (RequestTracing ⟨"GET", "/api/org/9", "/api/org/9"⟩ []
        fun c => (withRouteOperationName c "/api/org/:id", 403)).events.dropLast ++
        [SpanEvent.endSpan] ∧
    SpanEvent.endSpan ∉ (RequestTracing ⟨"GET", "/api/org/9", "/api/org/9"⟩ []
        fun c => (withRouteOperationName c "/api/org/:id", 403)).events.dropLast ∧
    SpanEvent.setName ("HTTP " ++ "GET" ++ " " ++
        (RouteOperationNameFromContext (RequestTracing ⟨"GET", "/api/org/9", "/api/org/9"⟩ []
          fun c => (withRouteOperationName c "/api/org/:id", 403)).finalCtx).1) ∈
      (RequestTracing ⟨"GET", "/api/org/9", "/api/org/9"⟩ []
        fun c => (withRouteOperationName c "/api/org/:id", 403)).events.dropLast ∧
    (∀ e ∈ (RequestTracing ⟨"GET", "/api/org/9", "/api/org/9"⟩ []
        fun c => (withRouteOperationName c "/api/org/:id", 403)).events,
      isAttrEvent e = true →
        e ∈ (RequestTracing ⟨"GET", "/api/org/9", "/api/org/9"⟩ []
          fun c => (withRouteOperationName c "/api/org/:id", 403)).events.dropLast) ∧
    (∀ m, SpanEvent.setStatusError m ∈ (RequestTracing ⟨"GET", "/api/org/9", "/api/org/9"⟩ []
        fun c => (withRouteOperationName c "/api/org/:id", 403)).events →
      SpanEvent.setStatusError m ∈ (RequestTracing ⟨"GET", "/api/org/9", "/api/org/9"⟩ []
        fun c => (withRouteOperationName c "/api/org/:id", 403)).events.dropLast) :=
  requestTracing_end_runs_last ⟨"GET", "/api/org/9", "/api/org/9"⟩ []
    (fun c => (withRouteOperationName c "/api/org/:id", 403)) (by decide) (by decide)
